import Mathlib

/-!
# A shallow embedding of tidyplot-python (src/tidyplots/tidyplots.py)

The repository is a fluent builder over plotnine: a `TidyPlot` object holds a
pandas DataFrame, an aesthetic mapping, and an accumulated plot expression to
which every method appends directives.

Embedding choices, stated once here:

* Cell values are exact rationals (`ℚ`).  The claims under verification only
  need numeric columns (group labels may be numbers); exact arithmetic stands
  in for the floating point of numpy/pandas.
* A pandas DataFrame is a list of named columns.  Pandas raises `KeyError` for
  a missing column (a delegated error, per the spec's error taxonomy); the
  embedding totalises column lookup with the empty column and theorems add
  presence hypotheses where column contents matter.
* The plotnine expression `ggplot(data, mapping) + d1 + d2 + ...` is embedded
  as a `Plot` record carrying the ordered list of appended directives; each
  plotnine primitive used by the source becomes one `Directive` constructor
  carrying the arguments the source passes.
* scipy is an external collaborator.  The t-test, rank-sum test, Spearman
  correlation and float formatting are abstracted as fields of a `StatsLib`
  parameter.  Pearson correlation is embedded by its mathematical definition
  (what `scipy.stats.pearsonr` computes): r = Σ dx·dy / √(Σ dx² · Σ dy²),
  with a two-sided p-value that is exactly 0 when |r| = 1 and otherwise given
  by the collaborator's null-distribution tail.
* Python raising is modelled by returning the builder state at raise time
  together with `some` error; `warnings.warn` by a returned Boolean flag.
-/

/-- One column lookup step; pandas indexing `df[name]` keeps the first match. -/
def lookupCol : List (String × List ℚ) → String → List ℚ
  | [], _ => []
  | (n, v) :: rest, s => if n = s then v else lookupCol rest s

/-- A pandas DataFrame restricted to what the claims need: named columns of
rational values, all of one length in intended use. -/
structure DataFrame where
  cols : List (String × List ℚ)
deriving DecidableEq

/-- `df[s]`: column access by name (empty column when the name is absent;
pandas would raise a delegated `KeyError` there). -/
def getCol (df : DataFrame) (s : String) : List ℚ := lookupCol df.cols s

/-- `np.mean` / `pd.Series.mean` on a rational column. -/
def meanQ (l : List ℚ) : ℚ := l.sum / l.length

/-- `pd.Series.max` on a rational column (0 on the empty column, where pandas
would produce NaN; no claim evaluates that case). -/
def listMax : List ℚ → ℚ
  | [] => 0
  | [a] => a
  | a :: b :: rest => max a (listMax (b :: rest))

/-- Insert into a sorted list; one step of the sort behind Python `sorted`. -/
def insertSorted (a : ℚ) : List ℚ → List ℚ
  | [] => [a]
  | b :: rest => if a ≤ b then a :: b :: rest else b :: insertSorted a rest

/-- Python `sorted` on rationals, as insertion sort. -/
def sortQ (l : List ℚ) : List ℚ := l.foldr insertSorted []

/-- `pd.Series.unique`: first occurrences, in order, given the values seen so
far. -/
def seenDedup : List ℚ → List ℚ → List ℚ
  | [], _ => []
  | a :: rest, seen =>
    if a ∈ seen then seenDedup rest seen else a :: seenDedup rest (a :: seen)

/-- `sorted(series.unique())` from `add_test_pvalue`. -/
def uniqueSorted (l : List ℚ) : List ℚ := sortQ (seenDedup l [])

/-- `self.data[self.data[self.x] == v][self.y]`: the y-values of the rows whose
x-value equals `v` (columns are positionally aligned). -/
def maskedY (xs ys : List ℚ) (v : ℚ) : List ℚ :=
  ((xs.zip ys).filter (fun p => p.1 = v)).map (fun p => p.2)

/-- `pd.Series.quantile` with the default linear interpolation. -/
def quantileQ (l : List ℚ) (q : ℚ) : ℚ :=
  let s := sortQ l
  let n := s.length
  if n = 0 then 0
  else
    let h : ℚ := q * ((n : ℚ) - 1)
    let i : ℕ := h.floor.toNat
    let lo := s.getD i 0
    let hi := s.getD (i + 1) lo
    lo + (h - (h.floor : ℚ)) * (hi - lo)

/-- Numerator of the Pearson correlation: Σ (xᵢ - x̄)(yᵢ - ȳ). -/
def pearsonNum (xs ys : List ℚ) : ℚ :=
  ((xs.zip ys).map (fun p => (p.1 - meanQ xs) * (p.2 - meanQ ys))).sum

/-- Squared deviations Σ (xᵢ - x̄)². -/
def sqDev (xs : List ℚ) : ℚ := ((xs.map (fun a => (a - meanQ xs) ^ 2))).sum

/-- The correlation coefficient `scipy.stats.pearsonr` computes:
r = Σ dx·dy / √(Σ dx² · Σ dy²). -/
noncomputable def pearson_r (xs ys : List ℚ) : ℝ :=
  ((pearsonNum xs ys : ℚ) : ℝ) / Real.sqrt ((sqDev xs * sqDev ys : ℚ) : ℝ)

/-- The two-sided p-value of `scipy.stats.pearsonr`: exactly 0 when |r| = 1
(scipy special-cases a perfect correlation), otherwise the tail mass `tail r n`
of the null distribution, supplied by the statistics collaborator. -/
noncomputable def pearson_p (tail : ℝ → ℕ → ℝ) (xs ys : List ℚ) : ℝ :=
  if |pearson_r xs ys| = 1 then 0 else tail (pearson_r xs ys) xs.length

/-- The external statistics/formatting collaborator (scipy + Python string
formatting).  Only the interfaces the source calls. -/
structure StatsLib where
  ttest_ind : List ℚ → List ℚ → ℝ × ℝ
  ranksums : List ℚ → List ℚ → ℝ × ℝ
  spearmanr : List ℚ → List ℚ → ℝ × ℝ
  tailR : ℝ → ℕ → ℝ
  fmtR : ℝ → String → String

/-- An aesthetic mapping, `aes(...)`: bindings of column names to the x, y,
color and fill visual channels. -/
structure Aes where
  x : Option String
  y : Option String
  color : Option String
  fill : Option String
deriving DecidableEq

/-- Python truthiness of the `color` argument (`if color:`): present and
non-empty. -/
def truthy : Option String → Bool
  | none => false
  | some s => !(s == "")

/-- Tag for the `fun_y`/`fun_data` argument of `stat_summary` (the source
passes `np.mean`, the string `mean_se`, or a local closure). -/
inductive SummaryFun
  | meanBar
  | meanSe
  | sdFun
  | ciFun (ci : ℚ)
deriving DecidableEq

/-- `position_dodge()` / `position_stack()` in `add_count`. -/
inductive BarPosition
  | dodge
  | stack
deriving DecidableEq

/-- One plotnine object appended to the plot expression with `+`.  One
constructor per primitive the source constructs, carrying the arguments the
source passes (an `Option` field is an argument the source leaves to the
library default at that call site). -/
inductive Directive
  | themeMinimal
  | aesFill (fill : Option String)
  | statSummary (f : SummaryFun) (geom : String) (alpha : Option ℚ) (width : ℚ)
  | geomErrorbar (ymin ymax : String) (width : ℚ)
  | geomPoint (jitterWidth : Option ℚ) (size alpha : ℚ)
  | geomJitter (width size alpha : ℚ)
  | geomViolin (alpha : ℚ) (drawQuantiles : List ℚ)
  | geomBoxplot (alpha outlierAlpha : ℚ)
  | geomDensity (alpha : ℚ)
  | geomDensity2d (alpha : ℚ)
  | geomLine (alpha : ℚ)
  | geomSmooth (method : String) (se : Bool)
  | geomBar (stat : String) (pos : BarPosition)
  | annotateText (label : String) (x y : ℚ) (ha va : String)
  | geomHline (yintercept : ℚ) (linetype : String) (color : Option String) (alpha : ℚ)
  | geomVline (xintercept : ℚ) (linetype : String) (color : Option String) (alpha : ℚ)
  | geomRibbon (ymin ymax : String) (alpha : ℚ)
  | geomRug (sides : String) (length alpha : ℚ)
  | geomStep (direction : String)
  | statBin2d (bins : List ℕ)
  | scaleXContinuous
  | scaleYContinuous
  | scaleColorBrewer (palette : String)
  | labsD (title xlab ylab : Option String)
  | themeAxisTextAngle (angle : ℚ)
  | themeLegendPosition (position : String)
  | scaleXLog10D
  | scaleYLog10D
  | scaleXSqrtD
  | scaleYSqrtD
  | scaleXReverseD
  | scaleYReverseD
  | scaleColorGradientD (low high : String)
  | scaleColorGradient2D (low mid high : String)
deriving DecidableEq

/-- The accumulated plot expression `ggplot(data, mapping) + d₁ + ... + dₙ`. -/
structure Plot where
  data : DataFrame
  mapping : Aes
  directives : List Directive
deriving DecidableEq

/-- The Python exceptions the source raises itself. -/
inductive PyErr
  | valueError (msg : String)
deriving DecidableEq

/-- The builder: `TidyPlot.__init__` stores the data, the mapping arguments,
the constructed mapping and the plot expression. -/
structure TidyPlot where
  data : DataFrame
  x : String
  y : Option String
  color : Option String
  mapping : Aes
  plot : Plot
deriving DecidableEq

/-- `TidyPlot.__init__`: `mapping = aes(x=x)`, refined to `aes(x=x, y=y)` when
y is given; a truthy color binds to the color channel when y is present and to
the fill channel when it is not; the plot starts as
`ggplot(data, mapping) + theme_minimal()`, plus `aes(fill=color)` when color
is truthy and y is None. -/
def TidyPlot.init (data : DataFrame) (x : String) (y : Option String)
    (color : Option String) : TidyPlot :=
  let m1 : Aes := { x := some x, y := none, color := none, fill := none }
  let m2 : Aes :=
    if y.isSome then { x := some x, y := y, color := none, fill := none } else m1
  let m3 : Aes :=
    if truthy color then
      (if y.isSome then { x := some x, y := y, color := color, fill := none }
       else { x := some x, y := none, color := none, fill := color })
    else m2
  let p1 : Plot := { data := data, mapping := m3, directives := [Directive.themeMinimal] }
  let p2 : Plot :=
    if truthy color && y.isNone then
      { p1 with directives := p1.directives ++ [Directive.aesFill color] }
    else p1
  { data := data, x := x, y := y, color := color, mapping := m3, plot := p2 }

/-- `self.plot = self.plot + d; return self`. -/
def TidyPlot.addD (tp : TidyPlot) (d : Directive) : TidyPlot :=
  { tp with plot := { tp.plot with directives := tp.plot.directives ++ [d] } }

def TidyPlot.add_mean_bar (tp : TidyPlot) (alpha width : ℚ) : TidyPlot :=
  tp.addD (Directive.statSummary SummaryFun.meanBar "bar" (some alpha) width)

def TidyPlot.add_sem_errorbar (tp : TidyPlot) (width : ℚ) : TidyPlot :=
  tp.addD (Directive.statSummary SummaryFun.meanSe "errorbar" none width)

def TidyPlot.add_sd_errorbar (tp : TidyPlot) (width : ℚ) : TidyPlot :=
  tp.addD (Directive.statSummary SummaryFun.sdFun "errorbar" none width)

def TidyPlot.add_ci_errorbar (tp : TidyPlot) (width ci : ℚ) : TidyPlot :=
  tp.addD (Directive.statSummary (SummaryFun.ciFun ci) "errorbar" none width)

def TidyPlot.add_errorbar (tp : TidyPlot) (ymin ymax : String) (width : ℚ) : TidyPlot :=
  tp.addD (Directive.geomErrorbar ymin ymax width)

def TidyPlot.add_data_points_beeswarm (tp : TidyPlot) (size alpha : ℚ) : TidyPlot :=
  tp.addD (Directive.geomPoint (some (1 / 5)) size alpha)

def TidyPlot.add_data_points_jitter (tp : TidyPlot) (width size alpha : ℚ) : TidyPlot :=
  tp.addD (Directive.geomJitter width size alpha)

def TidyPlot.add_violin (tp : TidyPlot) (alpha : ℚ) (drawQuantiles : List ℚ) : TidyPlot :=
  tp.addD (Directive.geomViolin alpha drawQuantiles)

def TidyPlot.add_boxplot (tp : TidyPlot) (alpha outlierAlpha : ℚ) : TidyPlot :=
  tp.addD (Directive.geomBoxplot alpha outlierAlpha)

def TidyPlot.add_density (tp : TidyPlot) (alpha : ℚ) : TidyPlot :=
  tp.addD (Directive.geomDensity alpha)

def TidyPlot.add_density_2d (tp : TidyPlot) (alpha : ℚ) : TidyPlot :=
  tp.addD (Directive.geomDensity2d alpha)

def TidyPlot.add_scatter (tp : TidyPlot) (size alpha : ℚ) : TidyPlot :=
  tp.addD (Directive.geomPoint none size alpha)

def TidyPlot.add_line (tp : TidyPlot) (alpha : ℚ) : TidyPlot :=
  tp.addD (Directive.geomLine alpha)

def TidyPlot.add_smooth (tp : TidyPlot) (method : String) (se : Bool) : TidyPlot :=
  tp.addD (Directive.geomSmooth method se)

/-- `add_count`: validates `stat` then `position`, then appends one bar layer,
dodged or stacked. -/
def TidyPlot.add_count (tp : TidyPlot) (stat position : String) :
    TidyPlot × Option PyErr :=
  if stat ∉ (["count", "proportion"] : List String) then
    (tp, some (PyErr.valueError "stat must be count or proportion"))
  else if position ∉ (["stack", "dodge"] : List String) then
    (tp, some (PyErr.valueError "position must be stack or dodge"))
  else
    let pos := if position = "dodge" then BarPosition.dodge else BarPosition.stack
    (tp.addD (Directive.geomBar stat pos), none)

def TidyPlot.add_text (tp : TidyPlot) (label : String) (x y : ℚ)
    (ha va : String) : TidyPlot :=
  tp.addD (Directive.annotateText label x y ha va)

def TidyPlot.add_hline (tp : TidyPlot) (yintercept : ℚ) (linetype color : String)
    (alpha : ℚ) : TidyPlot :=
  tp.addD (Directive.geomHline yintercept linetype (some color) alpha)

def TidyPlot.add_vline (tp : TidyPlot) (xintercept : ℚ) (linetype color : String)
    (alpha : ℚ) : TidyPlot :=
  tp.addD (Directive.geomVline xintercept linetype (some color) alpha)

def TidyPlot.add_ribbon (tp : TidyPlot) (ymin ymax : String) (alpha : ℚ) : TidyPlot :=
  tp.addD (Directive.geomRibbon ymin ymax alpha)

def TidyPlot.add_rug (tp : TidyPlot) (sides : String) (length alpha : ℚ) : TidyPlot :=
  tp.addD (Directive.geomRug sides length alpha)

def TidyPlot.add_step (tp : TidyPlot) (direction : String) : TidyPlot :=
  tp.addD (Directive.geomStep direction)

/-- `add_hex`: one `+` chain appending `stat_bin_2d(bins=[bins, bins])`,
`scale_x_continuous()` and `scale_y_continuous()`. -/
def TidyPlot.add_hex (tp : TidyPlot) (bins : ℕ) : TidyPlot :=
  ((tp.addD (Directive.statBin2d [bins, bins])).addD
      Directive.scaleXContinuous).addD Directive.scaleYContinuous

/-- `add_quantiles`: for each requested quantile, append one dashed horizontal
line at `self.data[self.y].quantile(q)` with alpha 0.5. -/
def TidyPlot.add_quantiles (tp : TidyPlot) (qs : List ℚ) : TidyPlot :=
  qs.foldl
    (fun acc q =>
      acc.addD (Directive.geomHline
        (quantileQ (getCol acc.data (acc.y.getD "")) q) "dashed" none (1 / 2)))
    tp

/-- `sorted(self.data[self.x].unique())`. -/
def TidyPlot.groups (tp : TidyPlot) : List ℚ :=
  uniqueSorted (getCol tp.data tp.x)

/-- `add_test_pvalue`: with other than two distinct x-values, warn and return
self unchanged; otherwise split the y-column by the two group labels, run the
requested test through the collaborator (raising on an unknown test name), and
append the formatted p-value at x = mean([0, 1]), y = 1.1 · max(y column).
Returns (self, raised error, warned flag). -/
def TidyPlot.add_test_pvalue (slib : StatsLib) (tp : TidyPlot) (test fm : String) :
    TidyPlot × Option PyErr × Bool :=
  let groups := tp.groups
  if groups.length ≠ 2 then (tp, none, true)
  else
    let xs := getCol tp.data tp.x
    let ys := getCol tp.data (tp.y.getD "")
    let g1 := maskedY xs ys (groups.getD 0 0)
    let g2 := maskedY xs ys (groups.getD 1 0)
    let spE : Option (ℝ × ℝ) :=
      if test = "t" then some (slib.ttest_ind g1 g2)
      else if test = "wilcoxon" then some (slib.ranksums g1 g2)
      else none
    match spE with
    | none => (tp, some (PyErr.valueError "test must be t or wilcoxon"), false)
    | some sp =>
      let ymax := listMax ys
      (tp.add_text ("p = " ++ slib.fmtR sp.2 fm) (meanQ [0, 1]) (ymax * (11 / 10))
        "center" "center", none, false)

/-- `add_correlation_text`: validates the method name (raising on an unknown
one), computes Pearson (embedded mathematically) or Spearman (collaborator),
and appends the formatted r and p at x = mean(x column),
y = 1.1 · max(y column). -/
noncomputable def TidyPlot.add_correlation_text (slib : StatsLib) (tp : TidyPlot)
    (method fm : String) : TidyPlot × Option PyErr :=
  if method ∉ (["pearson", "spearman"] : List String) then
    (tp, some (PyErr.valueError "method must be pearson or spearman"))
  else
    let xs := getCol tp.data tp.x
    let ys := getCol tp.data (tp.y.getD "")
    let rp : ℝ × ℝ :=
      if method = "pearson" then (pearson_r xs ys, pearson_p slib.tailR xs ys)
      else slib.spearmanr xs ys
    let ymax := listMax ys
    (tp.add_text ("r = " ++ slib.fmtR rp.1 fm ++ "\np = " ++ slib.fmtR rp.2 fm)
      (meanQ xs) (ymax * (11 / 10)) "center" "center", none)

def TidyPlot.adjust_colors (tp : TidyPlot) (palette : String) : TidyPlot :=
  tp.addD (Directive.scaleColorBrewer palette)

def TidyPlot.adjust_labels (tp : TidyPlot) (title xlab ylab : Option String) : TidyPlot :=
  tp.addD (Directive.labsD title xlab ylab)

def TidyPlot.adjust_axis_text_angle (tp : TidyPlot) (angle : ℚ) : TidyPlot :=
  tp.addD (Directive.themeAxisTextAngle angle)

/-- `adjust_legend_position`: validates the position against the fixed set,
raising before anything is appended. -/
def TidyPlot.adjust_legend_position (tp : TidyPlot) (position : String) :
    TidyPlot × Option PyErr :=
  if position ∉ (["right", "left", "top", "bottom", "none"] : List String) then
    (tp, some (PyErr.valueError "position must be right, left, top, bottom, or none"))
  else (tp.addD (Directive.themeLegendPosition position), none)

def TidyPlot.scale_x_log10 (tp : TidyPlot) : TidyPlot := tp.addD Directive.scaleXLog10D

def TidyPlot.scale_y_log10 (tp : TidyPlot) : TidyPlot := tp.addD Directive.scaleYLog10D

def TidyPlot.scale_x_sqrt (tp : TidyPlot) : TidyPlot := tp.addD Directive.scaleXSqrtD

def TidyPlot.scale_y_sqrt (tp : TidyPlot) : TidyPlot := tp.addD Directive.scaleYSqrtD

def TidyPlot.scale_x_reverse (tp : TidyPlot) : TidyPlot := tp.addD Directive.scaleXReverseD

def TidyPlot.scale_y_reverse (tp : TidyPlot) : TidyPlot := tp.addD Directive.scaleYReverseD

def TidyPlot.scale_color_gradient (tp : TidyPlot) (low high : String) : TidyPlot :=
  tp.addD (Directive.scaleColorGradientD low high)

def TidyPlot.scale_color_gradient2 (tp : TidyPlot) (low mid high : String) : TidyPlot :=
  tp.addD (Directive.scaleColorGradient2D low mid high)

/-- `show`: returns the in-progress expression, mutating nothing. -/
def TidyPlot.show (tp : TidyPlot) : Plot := tp.plot

/-- `save`: renders to a file through the external renderer; the builder state
is untouched and self is returned. -/
def TidyPlot.save (tp : TidyPlot) (_filename : String) : TidyPlot := tp

/-- The module-level helper `tidyplot(data, x, y, color)`. -/
def tidyplot (data : DataFrame) (x : String) (y : Option String)
    (color : Option String) : TidyPlot :=
  TidyPlot.init data x y color

/-- The accessor monkey-patched onto DataFrames,
`pd.DataFrame.tidyplot = lambda self, x, y=None, color=None: tidyplot(self, x, y, color)`. -/
def DataFrame.tidyplotAccessor (self : DataFrame) (x : String) (y : Option String)
    (color : Option String) : TidyPlot :=
  tidyplot self x y color

/-!
## Universal quantification over the method surface

To state the spec's "every add_* method" and "no builder operation" properties
as single theorems, the calls are reified: one constructor per public method,
carrying that method's arguments, with a dispatcher applying the corresponding
definition above.
-/

/-- One call to an `add_*` method, with its arguments. -/
inductive AddCall
  | mean_bar (alpha width : ℚ)
  | sem_errorbar (width : ℚ)
  | sd_errorbar (width : ℚ)
  | ci_errorbar (width ci : ℚ)
  | errorbar (ymin ymax : String) (width : ℚ)
  | data_points_beeswarm (size alpha : ℚ)
  | data_points_jitter (width size alpha : ℚ)
  | violin (alpha : ℚ) (drawQuantiles : List ℚ)
  | boxplot (alpha outlierAlpha : ℚ)
  | density (alpha : ℚ)
  | density_2d (alpha : ℚ)
  | scatter (size alpha : ℚ)
  | line (alpha : ℚ)
  | smooth (method : String) (se : Bool)
  | count (stat position : String)
  | text (label : String) (x y : ℚ) (ha va : String)
  | hline (yintercept : ℚ) (linetype color : String) (alpha : ℚ)
  | vline (xintercept : ℚ) (linetype color : String) (alpha : ℚ)
  | ribbon (ymin ymax : String) (alpha : ℚ)
  | rug (sides : String) (length alpha : ℚ)
  | step (direction : String)
  | hex (bins : ℕ)
  | quantiles (qs : List ℚ)
  | test_pvalue (test fm : String)
  | correlation_text (method fm : String)

/-- Dispatch an `add_*` call to its definition; uniform result
(builder, raised error, warned flag). -/
noncomputable def applyAdd (slib : StatsLib) (c : AddCall) (tp : TidyPlot) :
    TidyPlot × Option PyErr × Bool :=
  match c with
  | .mean_bar a w => (tp.add_mean_bar a w, none, false)
  | .sem_errorbar w => (tp.add_sem_errorbar w, none, false)
  | .sd_errorbar w => (tp.add_sd_errorbar w, none, false)
  | .ci_errorbar w ci => (tp.add_ci_errorbar w ci, none, false)
  | .errorbar ymin ymax w => (tp.add_errorbar ymin ymax w, none, false)
  | .data_points_beeswarm s a => (tp.add_data_points_beeswarm s a, none, false)
  | .data_points_jitter w s a => (tp.add_data_points_jitter w s a, none, false)
  | .violin a dq => (tp.add_violin a dq, none, false)
  | .boxplot a oa => (tp.add_boxplot a oa, none, false)
  | .density a => (tp.add_density a, none, false)
  | .density_2d a => (tp.add_density_2d a, none, false)
  | .scatter s a => (tp.add_scatter s a, none, false)
  | .line a => (tp.add_line a, none, false)
  | .smooth m se => (tp.add_smooth m se, none, false)
  | .count stat pos =>
    let r := tp.add_count stat pos
    (r.1, r.2, false)
  | .text l x y ha va => (tp.add_text l x y ha va, none, false)
  | .hline yi lt c a => (tp.add_hline yi lt c a, none, false)
  | .vline xi lt c a => (tp.add_vline xi lt c a, none, false)
  | .ribbon ymin ymax a => (tp.add_ribbon ymin ymax a, none, false)
  | .rug s l a => (tp.add_rug s l a, none, false)
  | .step d => (tp.add_step d, none, false)
  | .hex b => (tp.add_hex b, none, false)
  | .quantiles qs => (tp.add_quantiles qs, none, false)
  | .test_pvalue t f => TidyPlot.add_test_pvalue slib tp t f
  | .correlation_text m f =>
    let r := TidyPlot.add_correlation_text slib tp m f
    (r.1, r.2, false)

/-- Valid arguments for an `add_*` call, per the source's own checks: the
enumerated parameters are in range, a p-value request sees exactly two groups,
and a quantile request lists at least one quantile. -/
def ValidAdd : AddCall → TidyPlot → Prop
  | .count stat pos, _ =>
    stat ∈ (["count", "proportion"] : List String) ∧
      pos ∈ (["stack", "dodge"] : List String)
  | .test_pvalue t _, tp =>
    t ∈ (["t", "wilcoxon"] : List String) ∧ tp.groups.length = 2
  | .correlation_text m _, _ => m ∈ (["pearson", "spearman"] : List String)
  | .quantiles qs, _ => qs ≠ []
  | _, _ => True

/-- How many directives each `add_*` call appends: one, except the hexbin
chain (three) and the quantile loop (one per quantile). -/
def addedCount : AddCall → ℕ
  | .hex _ => 3
  | .quantiles qs => qs.length
  | _ => 1

/-- One call to any public builder method. -/
inductive Call
  | add (a : AddCall)
  | adjust_colors (palette : String)
  | adjust_labels (title xlab ylab : Option String)
  | adjust_axis_text_angle (angle : ℚ)
  | adjust_legend_position (position : String)
  | scale_x_log10
  | scale_y_log10
  | scale_x_sqrt
  | scale_y_sqrt
  | scale_x_reverse
  | scale_y_reverse
  | scale_color_gradient (low high : String)
  | scale_color_gradient2 (low mid high : String)
  | showP
  | save (filename : String)

/-- Dispatch any builder method call, returning the builder it leaves behind
(`show` returns the expression and `save` renders externally; both leave the
builder as it was). -/
noncomputable def applyCall (slib : StatsLib) (c : Call) (tp : TidyPlot) : TidyPlot :=
  match c with
  | .add a => (applyAdd slib a tp).1
  | .adjust_colors p => tp.adjust_colors p
  | .adjust_labels t xl yl => tp.adjust_labels t xl yl
  | .adjust_axis_text_angle a => tp.adjust_axis_text_angle a
  | .adjust_legend_position p => (tp.adjust_legend_position p).1
  | .scale_x_log10 => tp.scale_x_log10
  | .scale_y_log10 => tp.scale_y_log10
  | .scale_x_sqrt => tp.scale_x_sqrt
  | .scale_y_sqrt => tp.scale_y_sqrt
  | .scale_x_reverse => tp.scale_x_reverse
  | .scale_y_reverse => tp.scale_y_reverse
  | .scale_color_gradient l h => tp.scale_color_gradient l h
  | .scale_color_gradient2 l m h => tp.scale_color_gradient2 l m h
  | .showP => tp
  | .save f => tp.save f

/-!
## Helper lemmas
-/

/-- The builder `tp` with `ds` appended to its plot expression. -/
def withDirs (tp : TidyPlot) (ds : List Directive) : TidyPlot :=
  { tp with plot := { tp.plot with directives := tp.plot.directives ++ ds } }

theorem addD_eq_withDirs (tp : TidyPlot) (d : Directive) :
    tp.addD d = withDirs tp [d] := rfl

theorem withDirs_nil (tp : TidyPlot) : withDirs tp [] = tp := by
  simp [withDirs]

theorem withDirs_data (tp : TidyPlot) (ds : List Directive) :
    (withDirs tp ds).data = tp.data := rfl

theorem withDirs_directives (tp : TidyPlot) (ds : List Directive) :
    (withDirs tp ds).plot.directives = tp.plot.directives ++ ds := rfl

theorem withDirs_withDirs (tp : TidyPlot) (ds es : List Directive) :
    withDirs (withDirs tp ds) es = withDirs tp (ds ++ es) := by
  simp [withDirs]

/-- The quantile loop unrolled: `add_quantiles` appends one dashed hline per
requested quantile, computed against the unchanged data. -/
theorem add_quantiles_eq (qs : List ℚ) (tp : TidyPlot) :
    tp.add_quantiles qs =
      withDirs tp (qs.map (fun q =>
        Directive.geomHline (quantileQ (getCol tp.data (tp.y.getD "")) q)
          "dashed" none (1 / 2))) := by
  induction qs generalizing tp with
  | nil => simp [TidyPlot.add_quantiles, withDirs]
  | cons q rest ih =>
    show (TidyPlot.add_quantiles
        (tp.addD (Directive.geomHline
          (quantileQ (getCol tp.data (tp.y.getD "")) q) "dashed" none (1 / 2)))
        rest) = _
    rw [ih]
    simp [TidyPlot.addD, withDirs]

/-- `add_quantiles` never touches the data. -/
theorem add_quantiles_data (qs : List ℚ) (tp : TidyPlot) :
    (tp.add_quantiles qs).data = tp.data := by
  rw [add_quantiles_eq]
  rfl

/-- A valid `add_*` call appends exactly `addedCount` directives to the plot
expression (and nothing else changes in the builder: no error, no warning). -/
theorem applyAdd_valid (slib : StatsLib) (c : AddCall) (tp : TidyPlot)
    (h : ValidAdd c tp) :
    ∃ ds : List Directive,
      applyAdd slib c tp = (withDirs tp ds, none, false) ∧
      ds.length = addedCount c := by
  cases c with
  | mean_bar a w => exact ⟨[_], rfl, rfl⟩
  | sem_errorbar w => exact ⟨[_], rfl, rfl⟩
  | sd_errorbar w => exact ⟨[_], rfl, rfl⟩
  | ci_errorbar w ci => exact ⟨[_], rfl, rfl⟩
  | errorbar ymin ymax w => exact ⟨[_], rfl, rfl⟩
  | data_points_beeswarm s a => exact ⟨[_], rfl, rfl⟩
  | data_points_jitter w s a => exact ⟨[_], rfl, rfl⟩
  | violin a dq => exact ⟨[_], rfl, rfl⟩
  | boxplot a oa => exact ⟨[_], rfl, rfl⟩
  | density a => exact ⟨[_], rfl, rfl⟩
  | density_2d a => exact ⟨[_], rfl, rfl⟩
  | scatter s a => exact ⟨[_], rfl, rfl⟩
  | line a => exact ⟨[_], rfl, rfl⟩
  | smooth m se => exact ⟨[_], rfl, rfl⟩
  | count stat pos =>
    obtain ⟨h1, h2⟩ := h
    refine ⟨[Directive.geomBar stat
      (if pos = "dodge" then BarPosition.dodge else BarPosition.stack)], ?_, rfl⟩
    simp [applyAdd, TidyPlot.add_count, h1, h2, addD_eq_withDirs]
  | text l x y ha va => exact ⟨[_], rfl, rfl⟩
  | hline yi lt c a => exact ⟨[_], rfl, rfl⟩
  | vline xi lt c a => exact ⟨[_], rfl, rfl⟩
  | ribbon ymin ymax a => exact ⟨[_], rfl, rfl⟩
  | rug s l a => exact ⟨[_], rfl, rfl⟩
  | step d => exact ⟨[_], rfl, rfl⟩
  | hex b =>
    refine ⟨[Directive.statBin2d [b, b], Directive.scaleXContinuous,
      Directive.scaleYContinuous], ?_, rfl⟩
    simp [applyAdd, TidyPlot.add_hex, TidyPlot.addD, withDirs]
  | quantiles qs =>
    refine ⟨qs.map (fun q =>
      Directive.geomHline (quantileQ (getCol tp.data (tp.y.getD "")) q)
        "dashed" none (1 / 2)), ?_, by simp [addedCount]⟩
    show (tp.add_quantiles qs, none, false) = _
    rw [add_quantiles_eq]
  | test_pvalue t f =>
    obtain ⟨h1, h2⟩ := h
    have hne : ¬(tp.groups.length ≠ 2) := by simp [h2]
    simp only [List.mem_cons, List.not_mem_nil, or_false] at h1
    rcases h1 with h1 | h1 <;> subst h1
    · exact ⟨[Directive.annotateText
        ("p = " ++ slib.fmtR (slib.ttest_ind
          (maskedY (getCol tp.data tp.x) (getCol tp.data (tp.y.getD ""))
            (tp.groups.getD 0 0))
          (maskedY (getCol tp.data tp.x) (getCol tp.data (tp.y.getD ""))
            (tp.groups.getD 1 0))).2 f)
        (meanQ [0, 1]) (listMax (getCol tp.data (tp.y.getD "")) * (11 / 10))
        "center" "center"],
        by simp [applyAdd, TidyPlot.add_test_pvalue, hne, TidyPlot.add_text,
          addD_eq_withDirs], rfl⟩
    · exact ⟨[Directive.annotateText
        ("p = " ++ slib.fmtR (slib.ranksums
          (maskedY (getCol tp.data tp.x) (getCol tp.data (tp.y.getD ""))
            (tp.groups.getD 0 0))
          (maskedY (getCol tp.data tp.x) (getCol tp.data (tp.y.getD ""))
            (tp.groups.getD 1 0))).2 f)
        (meanQ [0, 1]) (listMax (getCol tp.data (tp.y.getD "")) * (11 / 10))
        "center" "center"],
        by simp [applyAdd, TidyPlot.add_test_pvalue, hne, TidyPlot.add_text,
          addD_eq_withDirs], rfl⟩
  | correlation_text m f =>
    have hm : m ∈ (["pearson", "spearman"] : List String) := h
    have hmem : ¬(m ∉ (["pearson", "spearman"] : List String)) := not_not_intro hm
    simp only [List.mem_cons, List.not_mem_nil, or_false] at hm
    rcases hm with hm | hm <;> subst hm
    · exact ⟨[Directive.annotateText
        ("r = " ++ slib.fmtR (pearson_r (getCol tp.data tp.x)
            (getCol tp.data (tp.y.getD ""))) f ++
          "\np = " ++ slib.fmtR (pearson_p slib.tailR (getCol tp.data tp.x)
            (getCol tp.data (tp.y.getD ""))) f)
        (meanQ (getCol tp.data tp.x))
        (listMax (getCol tp.data (tp.y.getD "")) * (11 / 10)) "center" "center"],
        by simp [applyAdd, TidyPlot.add_correlation_text, hmem, TidyPlot.add_text,
          addD_eq_withDirs], rfl⟩
    · exact ⟨[Directive.annotateText
        ("r = " ++ slib.fmtR (slib.spearmanr (getCol tp.data tp.x)
            (getCol tp.data (tp.y.getD ""))).1 f ++
          "\np = " ++ slib.fmtR (slib.spearmanr (getCol tp.data tp.x)
            (getCol tp.data (tp.y.getD ""))).2 f)
        (meanQ (getCol tp.data tp.x))
        (listMax (getCol tp.data (tp.y.getD "")) * (11 / 10)) "center" "center"],
        by simp [applyAdd, TidyPlot.add_correlation_text, hmem, TidyPlot.add_text,
          addD_eq_withDirs], rfl⟩

/-- A valid `add_*` call appends at least one directive. -/
theorem addedCount_pos (c : AddCall) (tp : TidyPlot) (h : ValidAdd c tp) :
    0 < addedCount c := by
  cases c
  case quantiles qs => exact List.length_pos.mpr h
  all_goals norm_num [addedCount]

/-!
## Concrete fixtures for witnesses and counterexamples
-/

/-- A small dataset with two distinct x-group labels. -/
def df0 : DataFrame := ⟨[("x", [0, 1, 0]), ("y", [1, 2, 3])]⟩

def tp0 : TidyPlot := TidyPlot.init df0 "x" (some "y") none

/-- A dataset with three distinct x-group labels. -/
def df3 : DataFrame := ⟨[("x", [0, 1, 2]), ("y", [1, 2, 3])]⟩

def tp3 : TidyPlot := TidyPlot.init df3 "x" (some "y") none

/-- A trivial concrete statistics collaborator, enough to instantiate the
theorems at concrete inputs. -/
noncomputable def slib0 : StatsLib :=
  ⟨fun _ _ => (0, 0), fun _ _ => (0, 0), fun _ _ => (0, 0),
   fun _ _ => 0, fun _ _ => ""⟩

/-- Ten points 1..10; used as both columns of the perfectly linear dataset. -/
def l10 : List ℚ := [1, 2, 3, 4, 5, 6, 7, 8, 9, 10]

def df8 : DataFrame := ⟨[("x", l10), ("y", l10)]⟩

def tp8 : TidyPlot := TidyPlot.init df8 "x" (some "y") none

/-!
## The claims
-/

/-- C1: constructing a builder with y=None and a (non-empty) color column binds
that column to the fill channel and not the color channel (both in the mapping
and via the extra `aes(fill=color)` directive); constructing with y present
binds it to the color channel and not fill. -/
theorem init_color_channel_selection
    (df : DataFrame) (x yv c : String) (hc : c ≠ "") :
    ((TidyPlot.init df x none (some c)).mapping.fill = some c ∧
     (TidyPlot.init df x none (some c)).mapping.color = none ∧
     (TidyPlot.init df x none (some c)).plot.directives =
       [Directive.themeMinimal, Directive.aesFill (some c)]) ∧
    ((TidyPlot.init df x (some yv) (some c)).mapping.color = some c ∧
     (TidyPlot.init df x (some yv) (some c)).mapping.fill = none) := by
  have ht : truthy (some c) = true := by simp [truthy, hc]
  refine ⟨⟨?_, ?_, ?_⟩, ?_, ?_⟩ <;> simp [TidyPlot.init, ht]

/-- Witness for C1 at the concrete dataset `df0` and color column "grp". -/
theorem init_color_channel_selection_witness :
    ("grp" : String) ≠ "" ∧
    (((TidyPlot.init df0 "x" none (some "grp")).mapping.fill = some "grp" ∧
      (TidyPlot.init df0 "x" none (some "grp")).mapping.color = none ∧
      (TidyPlot.init df0 "x" none (some "grp")).plot.directives =
        [Directive.themeMinimal, Directive.aesFill (some "grp")]) ∧
     ((TidyPlot.init df0 "x" (some "y") (some "grp")).mapping.color = some "grp" ∧
      (TidyPlot.init df0 "x" (some "y") (some "grp")).mapping.fill = none)) :=
  ⟨by decide, init_color_channel_selection df0 "x" "y" "grp" (by decide)⟩

/-- C2: with other than exactly two distinct x-values, `add_test_pvalue` warns,
appends nothing, and returns the builder unchanged with no error. -/
theorem add_test_pvalue_warns_unless_two_groups
    (slib : StatsLib) (tp : TidyPlot) (test fm : String)
    (h : tp.groups.length ≠ 2) :
    TidyPlot.add_test_pvalue slib tp test fm = (tp, none, true) := by
  simp [TidyPlot.add_test_pvalue, h]

/-- Witness for C2 at the three-group dataset `df3`. -/
theorem add_test_pvalue_warns_unless_two_groups_witness :
    tp3.groups.length ≠ 2 ∧
    TidyPlot.add_test_pvalue slib0 tp3 "t" ".3f" = (tp3, none, true) :=
  ⟨by decide, add_test_pvalue_warns_unless_two_groups slib0 tp3 "t" ".3f" (by decide)⟩

/-- C3: each of the three enumerated-parameter validations rejects an
out-of-range value with a ValueError while leaving the builder, and hence the
accumulated plot expression, unchanged. -/
theorem invalid_enum_arguments_raise_value_error :
    (∀ (tp : TidyPlot) (pos : String),
        pos ∉ (["right", "left", "top", "bottom", "none"] : List String) →
        tp.adjust_legend_position pos =
          (tp, some (PyErr.valueError
            "position must be right, left, top, bottom, or none"))) ∧
    (∀ (slib : StatsLib) (tp : TidyPlot) (test fm : String),
        tp.groups.length = 2 →
        test ∉ (["t", "wilcoxon"] : List String) →
        TidyPlot.add_test_pvalue slib tp test fm =
          (tp, some (PyErr.valueError "test must be t or wilcoxon"), false)) ∧
    (∀ (slib : StatsLib) (tp : TidyPlot) (meth fm : String),
        meth ∉ (["pearson", "spearman"] : List String) →
        TidyPlot.add_correlation_text slib tp meth fm =
          (tp, some (PyErr.valueError "method must be pearson or spearman"))) := by
  refine ⟨?_, ?_, ?_⟩
  · intro tp pos hp
    simp [TidyPlot.adjust_legend_position, hp]
  · intro slib tp test fm h2 ht
    have hne : ¬(tp.groups.length ≠ 2) := by simp [h2]
    have ht1 : ¬(test = "t") := fun he => ht (by simp [he])
    have ht2 : ¬(test = "wilcoxon") := fun he => ht (by simp [he])
    simp [TidyPlot.add_test_pvalue, hne, ht1, ht2]
  · intro slib tp meth fm hm
    simp [TidyPlot.add_correlation_text, hm]

/-- Witness for C3: "middle", "z" and "kendall" are each rejected at `tp0`. -/
theorem invalid_enum_arguments_raise_value_error_witness :
    (tp0.adjust_legend_position "middle" =
      (tp0, some (PyErr.valueError
        "position must be right, left, top, bottom, or none"))) ∧
    (TidyPlot.add_test_pvalue slib0 tp0 "z" ".3f" =
      (tp0, some (PyErr.valueError "test must be t or wilcoxon"), false)) ∧
    (TidyPlot.add_correlation_text slib0 tp0 "kendall" ".3f" =
      (tp0, some (PyErr.valueError "method must be pearson or spearman"))) :=
  ⟨invalid_enum_arguments_raise_value_error.1 tp0 "middle" (by decide),
   invalid_enum_arguments_raise_value_error.2.1 slib0 tp0 "z" ".3f"
     (by decide) (by decide),
   invalid_enum_arguments_raise_value_error.2.2 slib0 tp0 "kendall" ".3f"
     (by decide)⟩

/-- C4 counterexample: `add_quantiles` with an empty quantile list is accepted
(no error, no warning) yet the directive sequence does not grow, refuting
"strictly longer" for every valid `add_*` call. -/
theorem add_quantiles_empty_no_growth :
    (applyAdd slib0 (AddCall.quantiles []) tp0).2.1 = none ∧
    (applyAdd slib0 (AddCall.quantiles []) tp0).2.2 = false ∧
    (applyAdd slib0 (AddCall.quantiles []) tp0).1.plot.directives.length =
      tp0.plot.directives.length :=
  ⟨rfl, rfl, rfl⟩

/-- C4 (amended): every `add_*` call with valid arguments — for
`add_quantiles`, a non-empty quantile list — returns the builder with a
strictly longer directive sequence obtained by appending to the old one
(append-only, order preserved), with no error and no warning. -/
theorem add_calls_append_only_growth
    (slib : StatsLib) (c : AddCall) (tp : TidyPlot) (h : ValidAdd c tp) :
    ∃ ds : List Directive, ds ≠ [] ∧
      (applyAdd slib c tp).1 = withDirs tp ds ∧
      (applyAdd slib c tp).1.plot.directives = tp.plot.directives ++ ds ∧
      (applyAdd slib c tp).2.1 = none ∧
      (applyAdd slib c tp).2.2 = false := by
  obtain ⟨ds, heq, hlen⟩ := applyAdd_valid slib c tp h
  have h1 : (applyAdd slib c tp).1 = withDirs tp ds := by rw [heq]
  refine ⟨ds, ?_, h1, ?_, by rw [heq], by rw [heq]⟩
  · refine List.length_pos.mp ?_
    rw [hlen]
    exact addedCount_pos c tp h
  · rw [h1, withDirs_directives]

/-- Witness for C4 at a concrete scatter call on `tp0`. -/
theorem add_calls_append_only_growth_witness :
    ValidAdd (AddCall.scatter 3 (1 / 2)) tp0 ∧
    (∃ ds : List Directive, ds ≠ [] ∧
      (applyAdd slib0 (AddCall.scatter 3 (1 / 2)) tp0).1 = withDirs tp0 ds ∧
      (applyAdd slib0 (AddCall.scatter 3 (1 / 2)) tp0).1.plot.directives =
        tp0.plot.directives ++ ds ∧
      (applyAdd slib0 (AddCall.scatter 3 (1 / 2)) tp0).2.1 = none ∧
      (applyAdd slib0 (AddCall.scatter 3 (1 / 2)) tp0).2.2 = false) :=
  ⟨trivial, add_calls_append_only_growth slib0 (AddCall.scatter 3 (1 / 2)) tp0 trivial⟩

/-- C5 counterexample: `add_hex` appends three directives (the binned-2d stat
plus two continuous scales), not exactly one. -/
theorem add_hex_appends_three_not_one :
    (applyAdd slib0 (AddCall.hex 20) tp0).1.plot.directives.length =
      tp0.plot.directives.length + 3 ∧
    (applyAdd slib0 (AddCall.hex 20) tp0).1.plot.directives.length ≠
      tp0.plot.directives.length + 1 :=
  ⟨rfl, by decide⟩

/-- C5 (amended): every `add_*` call with valid arguments appends a determined
number of directives and returns the builder with no error and no warning:
exactly one for every method except `add_hex` (three) and `add_quantiles` (one
per entry of its quantile list). -/
theorem add_calls_directive_counts
    (slib : StatsLib) (c : AddCall) (tp : TidyPlot) (h : ValidAdd c tp) :
    (applyAdd slib c tp).1.plot.directives.length =
      tp.plot.directives.length + addedCount c ∧
    (applyAdd slib c tp).2.1 = none ∧
    (applyAdd slib c tp).2.2 = false := by
  obtain ⟨ds, heq, hlen⟩ := applyAdd_valid slib c tp h
  rw [heq]
  refine ⟨?_, rfl, rfl⟩
  simp [withDirs_directives, hlen]

/-- Witness for C5 at a concrete hex call on `tp0`. -/
theorem add_calls_directive_counts_witness :
    ValidAdd (AddCall.hex 20) tp0 ∧
    ((applyAdd slib0 (AddCall.hex 20) tp0).1.plot.directives.length =
      tp0.plot.directives.length + addedCount (AddCall.hex 20) ∧
     (applyAdd slib0 (AddCall.hex 20) tp0).2.1 = none ∧
     (applyAdd slib0 (AddCall.hex 20) tp0).2.2 = false) :=
  ⟨trivial, add_calls_directive_counts slib0 (AddCall.hex 20) tp0 trivial⟩

/-- C6: the monkey-patched DataFrame accessor and the explicit constructor
function produce equal builders — hence the same data reference, mapping,
accumulated expression, and the same behavior under every subsequent call. -/
theorem accessor_equals_constructor (df : DataFrame) (x : String)
    (y color : Option String) :
    DataFrame.tidyplotAccessor df x y color = tidyplot df x y color ∧
    tidyplot df x y color = TidyPlot.init df x y color ∧
    ∀ (slib : StatsLib) (c : Call),
      applyCall slib c (DataFrame.tidyplotAccessor df x y color) =
        applyCall slib c (tidyplot df x y color) :=
  ⟨rfl, rfl, fun _ _ => rfl⟩

/-- C7: when `add_test_pvalue` succeeds (exactly two groups, known test) or
`add_correlation_text` succeeds (known method — independently of the group
count), each appends exactly one text annotation whose y-coordinate is 1.1
times the maximum of the y column.  Each half carries only its own success
hypotheses. -/
theorem stat_annotations_at_eleven_tenths_ymax
    (slib : StatsLib) (tp : TidyPlot) (ycol : String)
    (hy : tp.y = some ycol)
    (_hys : getCol tp.data ycol ≠ []) :
    (∀ test fm : String, tp.groups.length = 2 →
      test ∈ (["t", "wilcoxon"] : List String) →
      ∃ lbl, TidyPlot.add_test_pvalue slib tp test fm =
        (tp.add_text lbl (meanQ [0, 1])
          (listMax (getCol tp.data ycol) * (11 / 10)) "center" "center",
         none, false)) ∧
    (∀ meth fm : String, meth ∈ (["pearson", "spearman"] : List String) →
      ∃ lbl, TidyPlot.add_correlation_text slib tp meth fm =
        (tp.add_text lbl (meanQ (getCol tp.data tp.x))
          (listMax (getCol tp.data ycol) * (11 / 10)) "center" "center",
         none)) := by
  have hgd : tp.y.getD "" = ycol := by rw [hy]; rfl
  constructor
  · intro test fm h2 ht
    have hne : ¬(tp.groups.length ≠ 2) := by simp [h2]
    simp only [List.mem_cons, List.not_mem_nil, or_false] at ht
    rcases ht with ht | ht <;> subst ht
    · exact ⟨"p = " ++ slib.fmtR (slib.ttest_ind
        (maskedY (getCol tp.data tp.x) (getCol tp.data ycol) (tp.groups.getD 0 0))
        (maskedY (getCol tp.data tp.x) (getCol tp.data ycol)
          (tp.groups.getD 1 0))).2 fm,
        by simp [TidyPlot.add_test_pvalue, hne, hgd]⟩
    · exact ⟨"p = " ++ slib.fmtR (slib.ranksums
        (maskedY (getCol tp.data tp.x) (getCol tp.data ycol) (tp.groups.getD 0 0))
        (maskedY (getCol tp.data tp.x) (getCol tp.data ycol)
          (tp.groups.getD 1 0))).2 fm,
        by simp [TidyPlot.add_test_pvalue, hne, hgd]⟩
  · intro meth fm hm
    simp only [List.mem_cons, List.not_mem_nil, or_false] at hm
    rcases hm with hm | hm <;> subst hm
    · exact ⟨"r = " ++ slib.fmtR
          (pearson_r (getCol tp.data tp.x) (getCol tp.data ycol)) fm ++
        "\np = " ++ slib.fmtR
          (pearson_p slib.tailR (getCol tp.data tp.x) (getCol tp.data ycol)) fm,
        by simp [TidyPlot.add_correlation_text, hgd]⟩
    · exact ⟨"r = " ++ slib.fmtR
          (slib.spearmanr (getCol tp.data tp.x) (getCol tp.data ycol)).1 fm ++
        "\np = " ++ slib.fmtR
          (slib.spearmanr (getCol tp.data tp.x) (getCol tp.data ycol)).2 fm,
        by simp [TidyPlot.add_correlation_text, hgd]⟩

/-- Witness for C7: the test half at the two-group `tp0`, and the correlation
half at `tp8`, whose x column has ten distinct values (so correlation succeeds
with no two-group restriction). -/
theorem stat_annotations_at_eleven_tenths_ymax_witness :
    (tp0.y = some "y" ∧ getCol tp0.data "y" ≠ [] ∧ tp0.groups.length = 2 ∧
     ∃ lbl, TidyPlot.add_test_pvalue slib0 tp0 "t" ".3f" =
       (tp0.add_text lbl (meanQ [0, 1])
         (listMax (getCol tp0.data "y") * (11 / 10)) "center" "center",
        none, false)) ∧
    (tp8.y = some "y" ∧ getCol tp8.data "y" ≠ [] ∧ tp8.groups.length ≠ 2 ∧
     ∃ lbl, TidyPlot.add_correlation_text slib0 tp8 "pearson" ".3f" =
       (tp8.add_text lbl (meanQ (getCol tp8.data tp8.x))
         (listMax (getCol tp8.data "y") * (11 / 10)) "center" "center",
        none)) :=
  ⟨⟨rfl, by decide, by decide,
    (stat_annotations_at_eleven_tenths_ymax slib0 tp0 "y" rfl (by decide)).1
      "t" ".3f" (by decide) (by decide)⟩,
   ⟨rfl, by decide, by decide,
    (stat_annotations_at_eleven_tenths_ymax slib0 tp8 "y" rfl (by decide)).2
      "pearson" ".3f" (by decide)⟩⟩

/-- C8: on the ten-point dataset with y = x, Pearson correlation is exactly 1,
its p-value exactly 0, and `add_correlation_text` annotates the plot with those
formatted values at x = mean(x) = 5.5, y = 1.1 · max(y) = 11. -/
theorem pearson_perfect_linear_ten_points (slib : StatsLib) :
    pearson_r l10 l10 = 1 ∧
    pearson_p slib.tailR l10 l10 = 0 ∧
    TidyPlot.add_correlation_text slib tp8 "pearson" ".3f" =
      (tp8.add_text ("r = " ++ slib.fmtR 1 ".3f" ++ "\np = " ++ slib.fmtR 0 ".3f")
        (11 / 2) 11 "center" "center", none) := by
  have hnum : pearsonNum l10 l10 = 165 / 2 := by
    norm_num [pearsonNum, meanQ, l10, List.zip]
  have hsq : sqDev l10 = 165 / 2 := by
    norm_num [sqDev, meanQ, l10]
  have hs : Real.sqrt (((sqDev l10 * sqDev l10 : ℚ) : ℝ)) = ((165 : ℝ) / 2) := by
    rw [hsq]
    push_cast
    rw [Real.sqrt_mul_self (by norm_num : (0 : ℝ) ≤ 165 / 2)]
  have hr : pearson_r l10 l10 = 1 := by
    unfold pearson_r
    rw [hnum, hs]
    push_cast
    norm_num
  have hp : pearson_p slib.tailR l10 l10 = 0 := by
    unfold pearson_p
    rw [hr]
    simp
  refine ⟨hr, hp, ?_⟩
  have hx8 : getCol tp8.data tp8.x = l10 := rfl
  have hy8 : getCol tp8.data (tp8.y.getD "") = l10 := rfl
  have hmean : meanQ l10 = 11 / 2 := by
    norm_num [meanQ, l10]
  have hmax : listMax l10 * (11 / 10) = 11 := by
    norm_num [listMax, l10]
  simp [TidyPlot.add_correlation_text, hx8, hy8, hr, hp, hmean, hmax]

/-- Data preservation of `add_count`, on every path. -/
theorem add_count_data (tp : TidyPlot) (s p : String) :
    (tp.add_count s p).1.data = tp.data := by
  simp only [TidyPlot.add_count]
  split
  · rfl
  · split <;> rfl

/-- Data preservation of `add_test_pvalue`, on every path. -/
theorem add_test_pvalue_data (slib : StatsLib) (tp : TidyPlot) (t f : String) :
    (TidyPlot.add_test_pvalue slib tp t f).1.data = tp.data := by
  simp only [TidyPlot.add_test_pvalue]
  split
  · rfl
  · split <;> rfl

/-- Data preservation of `add_correlation_text`, on every path. -/
theorem add_correlation_text_data (slib : StatsLib) (tp : TidyPlot)
    (m f : String) :
    (TidyPlot.add_correlation_text slib tp m f).1.data = tp.data := by
  simp only [TidyPlot.add_correlation_text]
  split <;> rfl

/-- Data preservation of `adjust_legend_position`, on every path. -/
theorem adjust_legend_position_data (tp : TidyPlot) (p : String) :
    (tp.adjust_legend_position p).1.data = tp.data := by
  simp only [TidyPlot.adjust_legend_position]
  split <;> rfl

/-- C9: no builder operation — construction, any `add_*`, `adjust_*`,
`scale_*`, `show` or `save` — modifies the caller-supplied dataset: every
method leaves the data reference identical, and construction stores the
dataset exactly as given. -/
theorem builder_never_mutates_dataset :
    (∀ (slib : StatsLib) (c : Call) (tp : TidyPlot),
        (applyCall slib c tp).data = tp.data) ∧
    (∀ (df : DataFrame) (x : String) (y color : Option String),
        (TidyPlot.init df x y color).data = df) := by
  constructor
  · intro slib c tp
    cases c with
    | add a =>
      cases a
      case quantiles qs => exact add_quantiles_data qs tp
      case count s p => exact add_count_data tp s p
      case test_pvalue t f => exact add_test_pvalue_data slib tp t f
      case correlation_text m f => exact add_correlation_text_data slib tp m f
      all_goals rfl
    | adjust_legend_position p => exact adjust_legend_position_data tp p
    | adjust_colors p => rfl
    | adjust_labels t xl yl => rfl
    | adjust_axis_text_angle a => rfl
    | scale_x_log10 => rfl
    | scale_y_log10 => rfl
    | scale_x_sqrt => rfl
    | scale_y_sqrt => rfl
    | scale_x_reverse => rfl
    | scale_y_reverse => rfl
    | scale_color_gradient l h => rfl
    | scale_color_gradient2 l m h => rfl
    | showP => rfl
    | save f => rfl
  · intro df x y color
    rfl

/-- C10: `add_count` rejects a `stat` outside {count, proportion} and a
`position` outside {stack, dodge} with a ValueError and no change to the plot
expression; with valid arguments it appends exactly one bar layer, dodged for
position "dodge" and stacked for position "stack", and returns the builder. -/
theorem add_count_validation_and_bar_layer (tp : TidyPlot) (stat pos : String) :
    (stat ∉ (["count", "proportion"] : List String) →
      tp.add_count stat pos =
        (tp, some (PyErr.valueError "stat must be count or proportion"))) ∧
    (stat ∈ (["count", "proportion"] : List String) →
      pos ∉ (["stack", "dodge"] : List String) →
      tp.add_count stat pos =
        (tp, some (PyErr.valueError "position must be stack or dodge"))) ∧
    (stat ∈ (["count", "proportion"] : List String) → pos = "dodge" →
      tp.add_count stat pos =
        (tp.addD (Directive.geomBar stat BarPosition.dodge), none)) ∧
    (stat ∈ (["count", "proportion"] : List String) → pos = "stack" →
      tp.add_count stat pos =
        (tp.addD (Directive.geomBar stat BarPosition.stack), none)) := by
  refine ⟨?_, ?_, ?_, ?_⟩
  · intro h
    simp [TidyPlot.add_count, h]
  · intro h1 h2
    simp [TidyPlot.add_count, h1, h2]
  · intro h1 h2
    subst h2
    simp [TidyPlot.add_count, h1]
  · intro h1 h2
    subst h2
    simp [TidyPlot.add_count, h1]

/-- Witness for C10: all four branches at concrete arguments on `tp0`. -/
theorem add_count_validation_and_bar_layer_witness :
    (tp0.add_count "freq" "stack" =
      (tp0, some (PyErr.valueError "stat must be count or proportion"))) ∧
    (tp0.add_count "count" "fill" =
      (tp0, some (PyErr.valueError "position must be stack or dodge"))) ∧
    (tp0.add_count "count" "dodge" =
      (tp0.addD (Directive.geomBar "count" BarPosition.dodge), none)) ∧
    (tp0.add_count "proportion" "stack" =
      (tp0.addD (Directive.geomBar "proportion" BarPosition.stack), none)) :=
  ⟨(add_count_validation_and_bar_layer tp0 "freq" "stack").1 (by decide),
   (add_count_validation_and_bar_layer tp0 "count" "fill").2.1
     (by decide) (by decide),
   (add_count_validation_and_bar_layer tp0 "count" "dodge").2.2.1 (by decide) rfl,
   (add_count_validation_and_bar_layer tp0 "proportion" "stack").2.2.2
     (by decide) rfl⟩
